import Mathlib

/-!
# Verification of the Time-mail mailbox registry (main.py)

A shallow embedding of the core of `main.py`: the in-memory registries
(`inboxes`, `active_connections`), the per-tick bodies of the two background
tasks (`cleanup_expired_inboxes`, `simulate_email_reception`), and the
endpoint handlers (`generate_new_email`, `check_email_inbox`, `delete_email`,
`refresh_email_timer`, `websocket_endpoint`).

Modelling conventions:
* Python dicts become association lists with the usual Python semantics:
  assignment replaces the first binding in place or appends a fresh one;
  `del` removes the first binding; lookup returns the first binding.
* Timestamps are `Nat` (seconds); `timedelta(hours=1)` is `TTL_SECONDS`.
* A WebSocket handle is an opaque `Nat` token.  Operations that call
  `close()` on a handle report the handles they signalled to close as an
  explicit list, since a handle removed from `active_connections` without a
  `close()` call is merely forgotten, not closed.
* `HTTPException(404)` and a Python dict `KeyError` are the two failure
  modes reachable in the embedded code (`PyErr`).
* Random choices (`random.choice`, `uuid` regeneration) become explicit
  parameters: an index `pick` for the choice of target inbox, a stream
  `cands : Nat → String` of candidate addresses, and a `pushOk : Bool` for
  whether `connection.send_json` succeeds or raises `WebSocketDisconnect`.
* Code between two `await` points runs without interleaving under asyncio's
  cooperative scheduler, so each tick / request-handler body is embedded as
  one atomic function on the server state.
-/

/-- One entry of an inbox's `messages` list (main.py lines 92–97). -/
structure Message where
  id : String
  sender : String
  subject : String
  body : String
deriving DecidableEq, Repr

/-- One value of the `inboxes` dict (main.py lines 28–39, 145–149). -/
structure Inbox where
  email_address : String
  messages : List Message
  expires_at : Nat
deriving DecidableEq, Repr

/-- The shared mutable state: the `inboxes` dict (line 39) and the
`active_connections` dict (line 43). -/
structure ServerState where
  inboxes : List (String × Inbox)
  active_connections : List (String × Nat)
deriving DecidableEq, Repr

/-- Failure modes of the embedded handlers: `HTTPException(404)` and a
Python `KeyError` on a missing dict key. -/
inductive PyErr where
  | notFound
  | keyError
deriving DecidableEq, Repr

/-- `timedelta(hours=1)` in seconds. -/
def TTL_SECONDS : Nat := 3600

/-! ## Python dict operations on association lists -/

/-- Python dict lookup `d[k]` / `d.get(k)`: first binding of `k`. -/
def dlookup {α : Type} (l : List (String × α)) (k : String) : Option α :=
  match l with
  | [] => none
  | (k', v) :: t => if k' = k then some v else dlookup t k

/-- Python dict assignment `d[k] = v`: replace the first binding of `k` in
place, or append a fresh binding at the end. -/
def dinsert {α : Type} (l : List (String × α)) (k : String) (v : α) :
    List (String × α) :=
  match l with
  | [] => [(k, v)]
  | (k', v') :: t => if k' = k then (k, v) :: t else (k', v') :: dinsert t k v

/-- Python `del d[k]`: remove the first binding of `k` (no-op if absent). -/
def derase {α : Type} (l : List (String × α)) (k : String) :
    List (String × α) :=
  match l with
  | [] => []
  | (k', v') :: t => if k' = k then t else (k', v') :: derase t k

/-- A dict never binds the same key twice; association lists representing
dicts satisfy this invariant. -/
def keysNodup {α : Type} (l : List (String × α)) : Prop :=
  (l.map Prod.fst).Nodup

instance {α : Type} (l : List (String × α)) : Decidable (keysNodup l) := by
  unfold keysNodup; infer_instance

/-- The addresses currently stored in the registry, i.e.
`[d['email_address'] for d in inboxes.values()]`. -/
def addressesOf (S : ServerState) : List String :=
  S.inboxes.map (fun p => p.2.email_address)

/-! ## Endpoint handlers -/

/-- `GET /api/check_email/{email_id}` (main.py lines 156–164): 404 if the
id is absent, otherwise the stored `messages` list. -/
def check_email_inbox (S : ServerState) (email_id : String) :
    Except PyErr (List Message) :=
  match dlookup S.inboxes email_id with
  | none => .error .notFound
  | some d => .ok d.messages

/-- `POST /api/delete_email` (main.py lines 167–189): 404 if absent;
otherwise delete the inbox, and if a websocket is open for this id, pop it
and call `close()` on it (a `RuntimeError` from `close` is swallowed).
Returns (new state, handles signalled to close, response message). -/
def delete_email (S : ServerState) (email_id : String) :
    Except PyErr (ServerState × List Nat × String) :=
  match dlookup S.inboxes email_id with
  | none => .error .notFound
  | some d =>
    let email_address := d.email_address
    let S1 : ServerState := { S with inboxes := derase S.inboxes email_id }
    let msg := "Email address " ++ email_address ++
      " and its inbox have been deleted."
    match dlookup S1.active_connections email_id with
    | none => .ok (S1, [], msg)
    | some conn =>
      .ok ({ S1 with
              active_connections := derase S1.active_connections email_id },
           [conn], msg)

/-- `POST /api/refresh_email` (main.py lines 192–205): 404 if absent;
otherwise set `expires_at = now + 1h`.  Returns (new state, response
message). -/
def refresh_email_timer (S : ServerState) (email_id : String) (now : Nat) :
    Except PyErr (ServerState × String) :=
  match dlookup S.inboxes email_id with
  | none => .error .notFound
  | some d =>
    let S1 : ServerState := { S with
      inboxes := dinsert S.inboxes email_id
        { d with expires_at := now + TTL_SECONDS } }
    .ok (S1, "Timer for " ++ d.email_address ++ " has been reset to one hour.")

/-! ## create: `GET /api/new_email` -/

/-- The address-collision retry loop of `generate_new_email` (main.py lines
133–139): try `cands i`; while it collides with a stored address
(`any(d['email_address'] == email_address for d in inboxes.values())`),
regenerate.  The `while` loop is embedded with explicit fuel; `none` means
the fuel ran out (shown unreachable when the candidate stream is not
exhausted by the stored addresses). -/
def genAddressLoop (S : ServerState) (cands : Nat → String) :
    Nat → Nat → Option String
  | _, 0 => none
  | i, fuel + 1 =>
    let email_address := cands i
    if S.inboxes.any (fun p => p.2.email_address = email_address) then
      genAddressLoop S cands (i + 1) fuel
    else
      some email_address

/-- `GET /api/new_email` (main.py lines 126–153): generate a fresh
`email_id` (a uuid, passed in), pick an address avoiding all stored ones,
and store `{email_address, messages: [], expires_at: now + 1h}` under
`email_id`.  Returns (new state, email_id, email_address). -/
def generate_new_email (S : ServerState) (email_id : String)
    (cands : Nat → String) (fuel now : Nat) :
    Option (ServerState × String × String) :=
  match genAddressLoop S cands 0 fuel with
  | none => none
  | some email_address =>
    let expires_at := now + TTL_SECONDS
    some ({ S with
            inboxes := dinsert S.inboxes email_id
              { email_address := email_address
                messages := []
                expires_at := expires_at } },
          email_id, email_address)

/-! ## WebSocket endpoint: attach and detach -/

/-- The attach half of `websocket_endpoint` (main.py lines 211–221): if the
id is not a live inbox, `close(code=1008)` the incoming websocket and
return; otherwise accept it and store it as
`active_connections[email_id] = websocket`, superseding any previous
binding.  Returns (new state, handles signalled to close, accepted?). -/
def websocket_endpoint_attach (S : ServerState) (email_id : String)
    (websocket : Nat) : ServerState × List Nat × Bool :=
  if (dlookup S.inboxes email_id).isSome then
    ({ S with
        active_connections := dinsert S.active_connections email_id websocket },
     [], true)
  else
    (S, [websocket], false)

/-- The `finally` block of `websocket_endpoint` (main.py lines 231–234):
`if email_id in active_connections: del active_connections[email_id]`.
Note the handler does NOT check that the stored websocket is its own: the
deletion is keyed on `email_id` alone. -/
def websocket_endpoint_finally (S : ServerState) (email_id : String) :
    ServerState :=
  if (dlookup S.active_connections email_id).isSome then
    { S with active_connections := derase S.active_connections email_id }
  else
    S

/-! ## Generator: `simulate_email_reception` -/

/-- Lines 99–100 of `simulate_email_reception`: look up the target inbox
and append the new email to its `messages`; a missing key is a Python
`KeyError`. -/
def appendMessage (S : ServerState) (target_email_id : String)
    (new_email : Message) : Except PyErr ServerState :=
  match dlookup S.inboxes target_email_id with
  | none => .error .keyError
  | some inbox_data =>
    .ok { S with
          inboxes := dinsert S.inboxes target_email_id
            { inbox_data with messages := inbox_data.messages ++ [new_email] } }

/-- Lines 104–111 of `simulate_email_reception`: if a connection is
registered for the target, try `send_json`; on `WebSocketDisconnect`
(modelled by `pushOk = false`) delete the connection.  The exception is
caught, so this step always returns a state. -/
def pushStep (S : ServerState) (target_email_id : String) (pushOk : Bool) :
    ServerState :=
  match dlookup S.active_connections target_email_id with
  | none => S
  | some _ =>
    if pushOk then S
    else { S with
           active_connections := derase S.active_connections target_email_id }

/-- One cycle body of `simulate_email_reception` after the target id has
been chosen (main.py lines 88–111): append the new email to the target
inbox, then attempt the live push. -/
def simulate_email_reception_body (S : ServerState)
    (target_email_id : String) (new_email : Message) (pushOk : Bool) :
    Except PyErr ServerState :=
  match appendMessage S target_email_id new_email with
  | .error e => .error e
  | .ok S1 => .ok (pushStep S1 target_email_id pushOk)

/-- Line 88: `random.choice(list(inboxes.keys()))`.  `random.choice`
returns the element at a uniformly chosen valid index, so the choice is
embedded as `pick % length`; `none` iff the registry is empty. -/
def selectTarget (S : ServerState) (pick : Nat) : Option String :=
  let keys := S.inboxes.map Prod.fst
  keys.get? (pick % keys.length)

/-- One full cycle of `simulate_email_reception` (main.py lines 80–111):
skip if no inboxes (`continue`), else choose a target and run the body. -/
def simulate_email_reception_cycle (S : ServerState) (pick : Nat)
    (new_email : Message) (pushOk : Bool) : Except PyErr ServerState :=
  match selectTarget S pick with
  | none => .ok S
  | some target_email_id =>
    simulate_email_reception_body S target_email_id new_email pushOk

/-- The generator's `while True` loop, run over a finite schedule of cycle
inputs.  An uncaught exception in a cycle would kill the asyncio task, so
it propagates and aborts the remaining schedule. -/
def runGenerator (S : ServerState) :
    List (Nat × Message × Bool) → Except PyErr ServerState
  | [] => .ok S
  | c :: rest =>
    match simulate_email_reception_cycle S c.1 c.2.1 c.2.2 with
    | .error e => .error e
    | .ok S1 => runGenerator S1 rest

/-! ## Reaper: `cleanup_expired_inboxes` -/

/-- Line 61–64: `[email_id for email_id, data in inboxes.items() if
data["expires_at"] < now]`. -/
def expiredIds (S : ServerState) (now : Nat) : List String :=
  (S.inboxes.filter (fun p => decide (p.2.expires_at < now))).map Prod.fst

/-- The body of the reaper's per-id loop (main.py lines 67–73): delete the
id from `inboxes` and from `active_connections`.  The code's `if … in …`
guards are redundant with `del`-when-present, since `derase` is the
identity on an absent key. -/
def reapDelete (T : ServerState) (email_id : String) : ServerState :=
  { inboxes := derase T.inboxes email_id
    active_connections := derase T.active_connections email_id }

/-- One tick of `cleanup_expired_inboxes` (main.py lines 55–73): collect
the ids with `expires_at < now`, then for each delete it from `inboxes`
and from `active_connections`.  No `close()` is ever called on the removed
connections (the code only deletes the dict entry, see the comment at line
72), so the list of handles signalled to close is empty. -/
def cleanup_expired_inboxes_tick (S : ServerState) (now : Nat) :
    ServerState × List Nat :=
  ((expiredIds S now).foldl reapDelete S, [])

deriving instance DecidableEq for Except

/-! ## Lemmas about the dict operations -/

theorem dlookup_dinsert_self {α : Type} (l : List (String × α)) (k : String)
    (v : α) : dlookup (dinsert l k v) k = some v := by
  induction l with
  | nil => simp [dinsert, dlookup]
  | cons p t ih =>
    obtain ⟨a, b⟩ := p
    by_cases h : a = k
    · simp [dinsert, dlookup, h]
    · simp [dinsert, dlookup, h, ih]

theorem dlookup_dinsert_ne {α : Type} (l : List (String × α)) (k k' : String)
    (v : α) (h : k' ≠ k) : dlookup (dinsert l k v) k' = dlookup l k' := by
  have hk : ¬ (k = k') := fun hh => h hh.symm
  induction l with
  | nil => simp [dinsert, dlookup, hk]
  | cons p t ih =>
    obtain ⟨a, b⟩ := p
    by_cases ha : a = k
    · subst ha
      simp [dinsert, dlookup, hk]
    · simp [dinsert, dlookup, ha, ih]

theorem derase_sublist {α : Type} (l : List (String × α)) (k : String) :
    List.Sublist (derase l k) l := by
  induction l with
  | nil => simp [derase]
  | cons p t ih =>
    obtain ⟨a, b⟩ := p
    by_cases h : a = k
    · simp [derase, h]
    · simpa [derase, h] using List.Sublist.cons₂ (a, b) ih

theorem dlookup_eq_none_iff {α : Type} (l : List (String × α)) (k : String) :
    dlookup l k = none ↔ k ∉ l.map Prod.fst := by
  induction l with
  | nil => simp [dlookup]
  | cons p t ih =>
    obtain ⟨a, b⟩ := p
    by_cases h : a = k
    · simp [dlookup, h]
    · have hk : ¬ (k = a) := fun hh => h hh.symm
      simp [dlookup, h, hk, ih]

theorem dlookup_isSome_of_mem {α : Type} (l : List (String × α)) (k : String)
    (h : k ∈ l.map Prod.fst) : (dlookup l k).isSome := by
  cases hl : dlookup l k with
  | none => exact absurd ((dlookup_eq_none_iff l k).1 hl) (not_not_intro h)
  | some v => rfl

theorem keysNodup_derase {α : Type} (l : List (String × α)) (k : String)
    (h : keysNodup l) : keysNodup (derase l k) :=
  List.Nodup.sublist (List.Sublist.map Prod.fst (derase_sublist l k)) h

theorem dlookup_derase_self {α : Type} (l : List (String × α)) (k : String)
    (h : keysNodup l) : dlookup (derase l k) k = none := by
  induction l with
  | nil => simp [derase, dlookup]
  | cons p t ih =>
    obtain ⟨a, b⟩ := p
    have h' : (a :: t.map Prod.fst).Nodup := h
    have ht : keysNodup t := (List.nodup_cons.1 h').2
    by_cases ha : a = k
    · subst ha
      have : a ∉ t.map Prod.fst := (List.nodup_cons.1 h').1
      simp only [derase, if_pos rfl]
      exact (dlookup_eq_none_iff t a).2 this
    · simp [derase, dlookup, ha, ih ht]

theorem dlookup_derase_ne {α : Type} (l : List (String × α)) (k k' : String)
    (h : k' ≠ k) : dlookup (derase l k) k' = dlookup l k' := by
  induction l with
  | nil => simp [derase]
  | cons p t ih =>
    obtain ⟨a, b⟩ := p
    by_cases ha : a = k
    · have hk : ¬ (k = k') := fun hh => h hh.symm
      simp [derase, dlookup, ha, hk]
    · simp [derase, dlookup, ha, ih]

theorem dlookup_none_derase {α : Type} (l : List (String × α)) (k k' : String)
    (h : dlookup l k' = none) : dlookup (derase l k) k' = none := by
  rw [dlookup_eq_none_iff] at h ⊢
  intro hmem
  exact h (List.Sublist.subset (List.Sublist.map Prod.fst (derase_sublist l k)) hmem)

theorem keys_dinsert {α : Type} (l : List (String × α)) (k : String)
    (v : α) : (dinsert l k v).map Prod.fst =
      if k ∈ l.map Prod.fst then l.map Prod.fst
      else l.map Prod.fst ++ [k] := by
  induction l with
  | nil => simp [dinsert]
  | cons p t ih =>
    obtain ⟨a, b⟩ := p
    by_cases ha : a = k
    · simp [dinsert, ha]
    · have hk : ¬ (k = a) := fun hh => ha hh.symm
      by_cases hmem : k ∈ t.map Prod.fst
      · simp [dinsert, ha, ih, hmem, hk]
      · simp [dinsert, ha, ih, hmem, hk]

theorem keysNodup_dinsert {α : Type} (l : List (String × α)) (k : String)
    (v : α) (h : keysNodup l) : keysNodup (dinsert l k v) := by
  unfold keysNodup at *
  rw [keys_dinsert]
  by_cases hmem : k ∈ l.map Prod.fst
  · simpa [hmem] using h
  · simp [hmem, List.nodup_append, h]

theorem dinsert_of_lookup_none {α : Type} (l : List (String × α)) (k : String)
    (v : α) (h : dlookup l k = none) : dinsert l k v = l ++ [(k, v)] := by
  induction l with
  | nil => simp [dinsert]
  | cons p t ih =>
    by_cases hp : p.1 = k
    · simp [dlookup, hp] at h
    · simp only [dlookup, if_neg hp] at h
      simp [dinsert, hp, ih h]

theorem mem_of_dlookup {α : Type} (l : List (String × α)) (k : String)
    (v : α) (h : dlookup l k = some v) : (k, v) ∈ l := by
  induction l with
  | nil => simp [dlookup] at h
  | cons p t ih =>
    obtain ⟨a, b⟩ := p
    by_cases ha : a = k
    · simp only [dlookup, if_pos ha] at h
      obtain rfl : b = v := Option.some.inj h
      subst ha
      exact List.mem_cons_self _ _
    · simp only [dlookup, if_neg ha] at h
      exact List.mem_cons_of_mem _ (ih h)

theorem dlookup_of_mem_nodup {α : Type} (l : List (String × α)) (k : String)
    (v : α) (hN : keysNodup l) (h : (k, v) ∈ l) : dlookup l k = some v := by
  induction l with
  | nil => simp at h
  | cons p t ih =>
    obtain ⟨a, b⟩ := p
    have hN' : (a :: t.map Prod.fst).Nodup := hN
    have h1 : a ∉ t.map Prod.fst := (List.nodup_cons.1 hN').1
    have ht : keysNodup t := (List.nodup_cons.1 hN').2
    rcases List.mem_cons.1 h with hh | hh
    · rw [Prod.mk.injEq] at hh
      obtain ⟨rfl, rfl⟩ := hh
      simp [dlookup]
    · by_cases ha : a = k
      · have hmem : k ∈ t.map Prod.fst := List.mem_map_of_mem Prod.fst hh
        rw [ha] at h1
        exact absurd hmem h1
      · simp [dlookup, ha, ih ht hh]

/-! ## Lemmas about the reaper's fold -/

theorem reap_foldl_preserves_none_inboxes (ids : List String) :
    ∀ S : ServerState, ∀ k : String, dlookup S.inboxes k = none →
      dlookup (ids.foldl reapDelete S).inboxes k = none := by
  induction ids with
  | nil => intro S k h; exact h
  | cons a t ih =>
    intro S k h
    exact ih (reapDelete S a) k (dlookup_none_derase S.inboxes a k h)

theorem reap_foldl_preserves_none_conns (ids : List String) :
    ∀ S : ServerState, ∀ k : String, dlookup S.active_connections k = none →
      dlookup (ids.foldl reapDelete S).active_connections k = none := by
  induction ids with
  | nil => intro S k h; exact h
  | cons a t ih =>
    intro S k h
    exact ih (reapDelete S a) k (dlookup_none_derase S.active_connections a k h)

theorem reap_foldl_nodup (ids : List String) :
    ∀ S : ServerState, keysNodup S.inboxes → keysNodup S.active_connections →
      keysNodup (ids.foldl reapDelete S).inboxes ∧
      keysNodup (ids.foldl reapDelete S).active_connections := by
  induction ids with
  | nil => intro S h1 h2; exact ⟨h1, h2⟩
  | cons a t ih =>
    intro S h1 h2
    exact ih (reapDelete S a) (keysNodup_derase _ _ h1) (keysNodup_derase _ _ h2)

theorem reap_foldl_mem_none (ids : List String) :
    ∀ S : ServerState, ∀ k : String,
      keysNodup S.inboxes → keysNodup S.active_connections → k ∈ ids →
      dlookup (ids.foldl reapDelete S).inboxes k = none ∧
      dlookup (ids.foldl reapDelete S).active_connections k = none := by
  induction ids with
  | nil => intro S k _ _ hmem; simp at hmem
  | cons a t ih =>
    intro S k h1 h2 hmem
    by_cases hk : k = a
    · subst hk
      have e1 : dlookup (reapDelete S k).inboxes k = none :=
        dlookup_derase_self _ _ h1
      have e2 : dlookup (reapDelete S k).active_connections k = none :=
        dlookup_derase_self _ _ h2
      exact ⟨reap_foldl_preserves_none_inboxes t _ k e1,
             reap_foldl_preserves_none_conns t _ k e2⟩
    · have hmem' : k ∈ t := by
        rcases List.mem_cons.1 hmem with hh | hh
        · exact absurd hh hk
        · exact hh
      exact ih (reapDelete S a) k (keysNodup_derase _ _ h1)
        (keysNodup_derase _ _ h2) hmem'

theorem reap_foldl_not_mem_inboxes (ids : List String) :
    ∀ S : ServerState, ∀ k : String, k ∉ ids →
      dlookup (ids.foldl reapDelete S).inboxes k = dlookup S.inboxes k := by
  induction ids with
  | nil => intro S k _; rfl
  | cons a t ih =>
    intro S k hmem
    have hk : k ≠ a := fun hh => hmem (hh ▸ List.mem_cons_self a t)
    have ht : k ∉ t := fun hh => hmem (List.mem_cons_of_mem a hh)
    rw [List.foldl_cons, ih (reapDelete S a) k ht]
    exact dlookup_derase_ne S.inboxes a k hk

theorem mem_expiredIds_iff (S : ServerState) (now : Nat) (k : String)
    (hN : keysNodup S.inboxes) :
    k ∈ expiredIds S now ↔
      ∃ d, dlookup S.inboxes k = some d ∧ d.expires_at < now := by
  unfold expiredIds
  constructor
  · intro h
    rcases List.mem_map.1 h with ⟨p, hp, hfst⟩
    rcases List.mem_filter.1 hp with ⟨hmem, hcond⟩
    obtain ⟨a, d⟩ := p
    obtain rfl : a = k := hfst
    exact ⟨d, dlookup_of_mem_nodup _ _ _ hN hmem, by simpa using hcond⟩
  · rintro ⟨d, hl, hexp⟩
    refine List.mem_map.2 ⟨(k, d), List.mem_filter.2
      ⟨mem_of_dlookup _ _ _ hl, by simpa using hexp⟩, rfl⟩

/-! ## Lemmas about the generator -/

theorem appendMessage_connections (S : ServerState) (t : String) (m : Message)
    (S1 : ServerState) (h : appendMessage S t m = .ok S1) :
    S1.active_connections = S.active_connections := by
  unfold appendMessage at h
  cases hd : dlookup S.inboxes t with
  | none => rw [hd] at h; cases h
  | some d =>
    rw [hd] at h
    cases h
    rfl

theorem pushStep_inboxes (S : ServerState) (t : String) (ok : Bool) :
    (pushStep S t ok).inboxes = S.inboxes := by
  cases hc : dlookup S.active_connections t <;> cases ok <;> simp [pushStep, hc]

theorem selectTarget_mem (S : ServerState) (pick : Nat) (target : String)
    (h : selectTarget S pick = some target) :
    target ∈ S.inboxes.map Prod.fst := by
  unfold selectTarget at h
  exact List.get?_mem h

theorem simulate_cycle_total (S : ServerState) (pick : Nat) (m : Message)
    (ok : Bool) :
    ∃ S', simulate_email_reception_cycle S pick m ok = .ok S' := by
  cases hsel : selectTarget S pick with
  | none =>
    exact ⟨S, by simp only [simulate_email_reception_cycle, hsel]⟩
  | some target =>
    have hmem := selectTarget_mem S pick target hsel
    have hs := dlookup_isSome_of_mem S.inboxes target hmem
    cases hd : dlookup S.inboxes target with
    | none => rw [hd] at hs; cases hs
    | some d =>
      refine ⟨pushStep (ServerState.mk (dinsert S.inboxes target (Inbox.mk d.email_address (d.messages ++ [m]) d.expires_at)) S.active_connections) target ok, ?_⟩
      simp only [simulate_email_reception_cycle, hsel,
        simulate_email_reception_body, appendMessage, hd]

theorem runGenerator_total (sched : List (Nat × Message × Bool)) :
    ∀ S : ServerState, ∃ S', runGenerator S sched = .ok S' := by
  induction sched with
  | nil => intro S; exact ⟨S, rfl⟩
  | cons c t ih =>
    intro S
    rcases simulate_cycle_total S c.1 c.2.1 c.2.2 with ⟨S1, h1⟩
    rcases ih S1 with ⟨S', h'⟩
    refine ⟨S', ?_⟩
    rw [runGenerator, h1]
    exact h'

/-! ## Lemmas about the address-collision loop -/

theorem any_email_address_eq (S : ServerState) (a : String) :
    (S.inboxes.any (fun p => p.2.email_address = a) = true) ↔
      a ∈ addressesOf S := by
  rw [List.any_eq_true]
  constructor
  · rintro ⟨p, hp, hd⟩
    exact List.mem_map.2 ⟨p, hp, of_decide_eq_true hd⟩
  · intro hmem
    rcases List.mem_map.1 hmem with ⟨p, hp, he⟩
    exact ⟨p, hp, decide_eq_true he⟩

theorem genAddressLoop_not_stored (S : ServerState) (cands : Nat → String) :
    ∀ fuel i addr, genAddressLoop S cands i fuel = some addr →
      addr ∉ addressesOf S := by
  intro fuel
  induction fuel with
  | zero => intro i addr h; simp [genAddressLoop] at h
  | succ f ih =>
    intro i addr h
    by_cases hc : S.inboxes.any (fun p => p.2.email_address = cands i) = true
    · simp only [genAddressLoop, hc, if_true] at h
      exact ih _ _ h
    · simp only [genAddressLoop, hc, if_false] at h
      obtain rfl : cands i = addr := Option.some.inj h
      intro hmem
      exact hc ((any_email_address_eq S _).2 hmem)

theorem genAddressLoop_terminates (S : ServerState) (cands : Nat → String) :
    ∀ fuel i j, j < fuel → cands (i + j) ∉ addressesOf S →
      ∃ addr, genAddressLoop S cands i fuel = some addr := by
  intro fuel
  induction fuel with
  | zero => intro i j hj _; exact absurd hj (Nat.not_lt_zero j)
  | succ f ih =>
    intro i j hj hfresh
    by_cases hc : S.inboxes.any (fun p => p.2.email_address = cands i) = true
    · have hj0 : j ≠ 0 := by
        intro h0
        subst h0
        rw [Nat.add_zero] at hfresh
        exact hfresh ((any_email_address_eq S _).1 hc)
      have hlt : j - 1 < f := by omega
      have heq : (i + 1) + (j - 1) = i + j := by omega
      have hfresh' : cands ((i + 1) + (j - 1)) ∉ addressesOf S := by
        rw [heq]; exact hfresh
      rcases ih (i + 1) (j - 1) hlt hfresh' with ⟨addr, ha⟩
      refine ⟨addr, ?_⟩
      simp only [genAddressLoop, hc, if_true]
      exact ha
    · refine ⟨cands i, ?_⟩
      simp [genAddressLoop, hc]

/-! ## Concrete fixtures used by witnesses and counterexamples -/

/-- A concrete stored inbox: created/refreshed at time 400, so
`expires_at = 400 + 3600 = 4000`. -/
def exInbox : Inbox :=
  { email_address := "x@temp-inbox.com", messages := [], expires_at := 4000 }

/-- A concrete generated email. -/
def exMsg : Message :=
  { id := "m1", sender := "service-1@example.com"
    subject := "Important Notification #1", body := "hello" }

/-- One live inbox `"a"` with websocket handle `7` attached. -/
def exState : ServerState :=
  { inboxes := [("a", exInbox)], active_connections := [("a", 7)] }

/-- One live inbox `"a"`, no websocket attached. -/
def exStateNoConn : ServerState :=
  { inboxes := [("a", exInbox)], active_connections := [] }

/-- A constant stream of fresh candidate addresses. -/
def exCands : Nat → String := fun _ => "fresh@temp-inbox.com"

/-! ## C1: canonical handle uniqueness, supersession, detach of a
superseded handle -/

/-- C1 counterexample: start with no connection, attach handle 1 for "a",
then attach handle 2 for "a" (superseding 1, so 2 is canonical).  When
handler 1's `finally` block now runs — `websocket_endpoint_finally`, which
deletes by `email_id` alone, never checking which websocket the exiting
handler owns (main.py lines 233–234) — the canonical handle 2 is removed
from `active_connections`.  This refutes the claim that detaching an
already-superseded handle leaves the currently canonical handle in place. -/
theorem ws_detach_superseded_removes_canonical :
    dlookup ((websocket_endpoint_attach (websocket_endpoint_attach
      exStateNoConn "a" 1).1 "a" 2).1).active_connections "a" = some 2 ∧
    ¬ (dlookup (websocket_endpoint_finally ((websocket_endpoint_attach
      (websocket_endpoint_attach exStateNoConn "a" 1).1 "a" 2).1)
      "a").active_connections "a" = some 2) := by decide

/-- C1 (amended): at most one canonical handle is bound per identifier at
any instant (the connection dict's keys stay duplicate-free under attach),
and attaching a second handle for the same identifier supersedes the first;
but the detach performed by a handler's `finally` block is keyed on the
identifier alone, so it never errors yet removes whatever handle is
currently canonical — detaching a superseded handle removes the new
canonical handle instead of leaving it in place. -/
theorem ws_attach_supersedes_detach_removes (S : ServerState)
    (email_id : String) (h1 h2 : Nat)
    (hNc : keysNodup S.active_connections)
    (hlive : (dlookup S.inboxes email_id).isSome = true) :
    keysNodup ((websocket_endpoint_attach S email_id h1).1).active_connections ∧
    dlookup ((websocket_endpoint_attach (websocket_endpoint_attach
      S email_id h1).1 email_id h2).1).active_connections email_id = some h2 ∧
    dlookup (websocket_endpoint_finally ((websocket_endpoint_attach
      (websocket_endpoint_attach S email_id h1).1 email_id h2).1)
      email_id).active_connections email_id = none := by
  have e1 : (websocket_endpoint_attach S email_id h1).1 =
      ServerState.mk S.inboxes (dinsert S.active_connections email_id h1) := by
    simp [websocket_endpoint_attach, hlive]
  have hN1 : keysNodup (dinsert S.active_connections email_id h1) :=
    keysNodup_dinsert _ _ _ hNc
  have e2 : (websocket_endpoint_attach (websocket_endpoint_attach
      S email_id h1).1 email_id h2).1 =
      ServerState.mk S.inboxes
        (dinsert (dinsert S.active_connections email_id h1) email_id h2) := by
    rw [e1]
    simp [websocket_endpoint_attach, hlive]
  have hN2 : keysNodup (dinsert (dinsert S.active_connections email_id h1)
      email_id h2) := keysNodup_dinsert _ _ _ hN1
  have hcan : dlookup (dinsert (dinsert S.active_connections email_id h1)
      email_id h2) email_id = some h2 := dlookup_dinsert_self _ _ _
  refine ⟨by rw [e1]; exact hN1, by rw [e2]; exact hcan, ?_⟩
  rw [e2]
  unfold websocket_endpoint_finally
  simp only [hcan, Option.isSome_some, if_true]
  exact dlookup_derase_self _ _ hN2

/-- C1 witness: the amended theorem applied to the concrete one-inbox
state, handles 1 and 2. -/
theorem ws_attach_supersedes_detach_removes_witness :
    keysNodup ((websocket_endpoint_attach exStateNoConn "a" 1).1).active_connections ∧
    dlookup ((websocket_endpoint_attach (websocket_endpoint_attach
      exStateNoConn "a" 1).1 "a" 2).1).active_connections "a" = some 2 ∧
    dlookup (websocket_endpoint_finally ((websocket_endpoint_attach
      (websocket_endpoint_attach exStateNoConn "a" 1).1 "a" 2).1)
      "a").active_connections "a" = none :=
  ws_attach_supersedes_detach_removes exStateNoConn "a" 1 2 (by decide) (by decide)

/-! ## C2: append commits before the push, and a failed push never removes
the message -/

/-- C2: in a generator cycle against a live target, the new email is
appended to the target's `messages` (appendMessage succeeds) and the cycle
pushes only on the post-append state; after a failed push, `get` on the
target still returns the messages with the new email at the tail. -/
theorem append_commits_before_push (S : ServerState) (target : String)
    (d : Inbox) (m : Message) (pushOk : Bool)
    (hd : dlookup S.inboxes target = some d) :
    ∃ S1, appendMessage S target m = .ok S1 ∧
      simulate_email_reception_body S target m pushOk =
        .ok (pushStep S1 target pushOk) ∧
      check_email_inbox (pushStep S1 target false) target =
        .ok (d.messages ++ [m]) ∧
      (d.messages ++ [m]).getLast? = some m := by
  have happ : appendMessage S target m = .ok (ServerState.mk
      (dinsert S.inboxes target
        (Inbox.mk d.email_address (d.messages ++ [m]) d.expires_at))
      S.active_connections) := by
    simp only [appendMessage, hd]
  refine ⟨_, happ, ?_, ?_, List.getLast?_concat _⟩
  · simp only [simulate_email_reception_body, happ]
  · simp only [check_email_inbox, pushStep_inboxes, dlookup_dinsert_self]

/-- C2 witness: the theorem at the concrete one-inbox state with an
attached connection and a failing push. -/
theorem append_commits_before_push_witness :
    ∃ S1, appendMessage exState "a" exMsg = .ok S1 ∧
      simulate_email_reception_body exState "a" exMsg false =
        .ok (pushStep S1 "a" false) ∧
      check_email_inbox (pushStep S1 "a" false) "a" =
        .ok (exInbox.messages ++ [exMsg]) ∧
      (exInbox.messages ++ [exMsg]).getLast? = some exMsg :=
  append_commits_before_push exState "a" exInbox exMsg false (by decide)

/-! ## C3: a failed push detaches the stale handle and never kills the
generator -/

/-- C3: when the push over an attached channel fails
(`WebSocketDisconnect`), the cycle still completes normally (`.ok`), the
stale handle is detached, the appended message survives, and the
generator's loop processes any schedule without ever propagating an
error. -/
theorem push_failure_detaches_not_fatal (S : ServerState) (target : String)
    (d : Inbox) (m : Message)
    (hNc : keysNodup S.active_connections)
    (hd : dlookup S.inboxes target = some d)
    (hconn : (dlookup S.active_connections target).isSome = true) :
    (∃ S', simulate_email_reception_body S target m false = .ok S' ∧
      dlookup S'.active_connections target = none ∧
      check_email_inbox S' target = .ok (d.messages ++ [m])) ∧
    (∀ T : ServerState, ∀ sched : List (Nat × Message × Bool),
      ∃ T', runGenerator T sched = .ok T') := by
  constructor
  · cases hc : dlookup S.active_connections target with
    | none => rw [hc] at hconn; cases hconn
    | some c =>
      refine ⟨ServerState.mk
        (dinsert S.inboxes target
          (Inbox.mk d.email_address (d.messages ++ [m]) d.expires_at))
        (derase S.active_connections target), ?_, ?_, ?_⟩
      · simp [simulate_email_reception_body, appendMessage, hd, pushStep, hc]
      · exact dlookup_derase_self _ _ hNc
      · simp only [check_email_inbox, dlookup_dinsert_self]
  · intro T sched
    exact runGenerator_total sched T

/-- C3 witness: the theorem at the concrete state with handle 7 attached
to inbox "a". -/
theorem push_failure_detaches_not_fatal_witness :
    (∃ S', simulate_email_reception_body exState "a" exMsg false = .ok S' ∧
      dlookup S'.active_connections "a" = none ∧
      check_email_inbox S' "a" = .ok (exInbox.messages ++ [exMsg])) ∧
    (∀ T : ServerState, ∀ sched : List (Nat × Message × Bool),
      ∃ T', runGenerator T sched = .ok T') :=
  push_failure_detaches_not_fatal exState "a" exInbox exMsg
    (by decide) (by decide) (by decide)

/-! ## C4: the reaper removes expired inboxes but only forgets their
channels -/

/-- C4 counterexample: a tick at `now = 5000` on the state whose inbox "a"
expired at 4000 with handle 7 attached removes the inbox and the
connection entry, yet signals no channel to close — handle 7 is not in the
tick's close-signal list (the code only does
`del active_connections[email_id]`; its own comment at line 72 concedes it
cannot close the socket).  This refutes "that channel is signalled to
close (not merely forgotten)". -/
theorem cleanup_tick_closes_nothing :
    dlookup exState.inboxes "a" = some exInbox ∧
    exInbox.expires_at < 5000 ∧
    dlookup exState.active_connections "a" = some 7 ∧
    dlookup (cleanup_expired_inboxes_tick exState 5000).1.inboxes "a" = none ∧
    ¬ (7 ∈ (cleanup_expired_inboxes_tick exState 5000).2) := by decide

/-- C4 (amended): on each tick, every mailbox with `expires_at` strictly
before the tick's `now` is removed from the registry and its delivery
channel entry is removed from the connection table, while unexpired
mailboxes are untouched; but no removed channel is signalled to close —
the tick's close-signal list is always empty (the handle is merely
forgotten). -/
theorem cleanup_tick_spec (S : ServerState) (now : Nat) (email_id : String)
    (d : Inbox) (hN : keysNodup S.inboxes)
    (hNc : keysNodup S.active_connections)
    (hd : dlookup S.inboxes email_id = some d) :
    (cleanup_expired_inboxes_tick S now).2 = [] ∧
    (d.expires_at < now →
      dlookup (cleanup_expired_inboxes_tick S now).1.inboxes email_id = none ∧
      dlookup (cleanup_expired_inboxes_tick S now).1.active_connections
        email_id = none) ∧
    (¬ d.expires_at < now →
      dlookup (cleanup_expired_inboxes_tick S now).1.inboxes email_id
        = some d) := by
  refine ⟨rfl, ?_, ?_⟩
  · intro hexp
    have hmem : email_id ∈ expiredIds S now :=
      (mem_expiredIds_iff S now email_id hN).2 ⟨d, hd, hexp⟩
    exact reap_foldl_mem_none (expiredIds S now) S email_id hN hNc hmem
  · intro hexp
    have hmem : email_id ∉ expiredIds S now := by
      intro hmem
      rcases (mem_expiredIds_iff S now email_id hN).1 hmem with ⟨d', hd', hlt⟩
      rw [hd] at hd'
      cases hd'
      exact hexp hlt
    have := reap_foldl_not_mem_inboxes (expiredIds S now) S email_id hmem
    rw [show (cleanup_expired_inboxes_tick S now).1
      = (expiredIds S now).foldl reapDelete S from rfl, this]
    exact hd

/-- C4 witness: the amended theorem at the concrete expired state. -/
theorem cleanup_tick_spec_witness :
    (cleanup_expired_inboxes_tick exState 5000).2 = [] ∧
    (exInbox.expires_at < 5000 →
      dlookup (cleanup_expired_inboxes_tick exState 5000).1.inboxes "a" = none ∧
      dlookup (cleanup_expired_inboxes_tick exState 5000).1.active_connections
        "a" = none) ∧
    (¬ exInbox.expires_at < 5000 →
      dlookup (cleanup_expired_inboxes_tick exState 5000).1.inboxes "a"
        = some exInbox) :=
  cleanup_tick_spec exState 5000 "a" exInbox (by decide) (by decide) (by decide)

/-! ## C5: delete removes the mailbox but its response does not report the
channel -/

/-- C5 counterexample: deleting "a" from a state with handle 7 attached
and from the same state with nothing attached returns the identical
response body, so the value returned to the caller cannot convey whether a
delivery channel was attached at deletion time (the handler closes the
channel itself and returns only a fixed message mentioning the address,
main.py lines 179–189). -/
theorem delete_email_response_hides_attachment :
    dlookup exState.active_connections "a" = some 7 ∧
    dlookup exStateNoConn.active_connections "a" = none ∧
    (delete_email exState "a").map (fun r => r.2.2) =
      (delete_email exStateNoConn "a").map (fun r => r.2.2) ∧
    (delete_email exState "a").map (fun r => r.2.2) =
      .ok "Email address x@temp-inbox.com and its inbox have been deleted." := by
  decide

/-- C5 (amended): delete on a live identifier removes the mailbox from the
registry and itself pops and closes the attached delivery channel when one
exists (the caller is not told whether one was attached — the response is
a fixed message naming the address); delete on an absent identifier
returns NotFound. -/
theorem delete_email_spec (S : ServerState) (email_id : String) (d : Inbox)
    (hN : keysNodup S.inboxes) (hNc : keysNodup S.active_connections)
    (hd : dlookup S.inboxes email_id = some d) :
    (∃ S' sigs msg, delete_email S email_id = .ok (S', sigs, msg) ∧
      dlookup S'.inboxes email_id = none ∧
      dlookup S'.active_connections email_id = none ∧
      sigs = (dlookup S.active_connections email_id).elim [] (fun c => [c]) ∧
      msg = "Email address " ++ d.email_address ++
        " and its inbox have been deleted.") ∧
    (∀ T : ServerState, ∀ id : String, dlookup T.inboxes id = none →
      delete_email T id = .error PyErr.notFound) := by
  constructor
  · cases hc : dlookup S.active_connections email_id with
    | none =>
      refine ⟨ServerState.mk (derase S.inboxes email_id) S.active_connections,
        [], "Email address " ++ d.email_address ++
          " and its inbox have been deleted.", ?_, ?_, ?_, ?_, rfl⟩
      · simp only [delete_email, hd, hc]
      · exact dlookup_derase_self _ _ hN
      · exact hc
      · rfl
    | some c =>
      refine ⟨ServerState.mk (derase S.inboxes email_id)
          (derase S.active_connections email_id),
        [c], "Email address " ++ d.email_address ++
          " and its inbox have been deleted.", ?_, ?_, ?_, ?_, rfl⟩
      · simp only [delete_email, hd, hc]
      · exact dlookup_derase_self _ _ hN
      · exact dlookup_derase_self _ _ hNc
      · rfl
  · intro T id h
    simp only [delete_email, h]

/-- C5 witness: the amended theorem at the concrete state with handle 7
attached. -/
theorem delete_email_spec_witness :
    (∃ S' sigs msg, delete_email exState "a" = .ok (S', sigs, msg) ∧
      dlookup S'.inboxes "a" = none ∧
      dlookup S'.active_connections "a" = none ∧
      sigs = (dlookup exState.active_connections "a").elim [] (fun c => [c]) ∧
      msg = "Email address " ++ exInbox.email_address ++
        " and its inbox have been deleted.") ∧
    (∀ T : ServerState, ∀ id : String, dlookup T.inboxes id = none →
      delete_email T id = .error PyErr.notFound) :=
  delete_email_spec exState "a" exInbox (by decide) (by decide) (by decide)

/-! ## C6: refresh resets the TTL and strictly extends the deadline -/

/-- C6: on a live mailbox whose `expires_at` was set at an earlier call
time `tprev` (as every stored value is: `set-time + 1h`), a refresh at
`now > tprev` sets `expires_at = now + 1h`, which is strictly greater than
the prior value. -/
theorem refresh_strictly_extends (S : ServerState) (email_id : String)
    (now tprev : Nat) (d : Inbox)
    (hd : dlookup S.inboxes email_id = some d)
    (hset : d.expires_at = tprev + TTL_SECONDS)
    (hclock : tprev < now) :
    ∃ S', refresh_email_timer S email_id now =
        .ok (S', "Timer for " ++ d.email_address ++
          " has been reset to one hour.") ∧
      dlookup S'.inboxes email_id =
        some (Inbox.mk d.email_address d.messages (now + TTL_SECONDS)) ∧
      d.expires_at < now + TTL_SECONDS := by
  refine ⟨ServerState.mk (dinsert S.inboxes email_id
      (Inbox.mk d.email_address d.messages (now + TTL_SECONDS)))
      S.active_connections, ?_, ?_, by omega⟩
  · simp only [refresh_email_timer, hd]
  · exact dlookup_dinsert_self _ _ _

/-- C6 witness: refresh of the concrete inbox (set at time 400, so
`expires_at = 4000`) at time 500. -/
theorem refresh_strictly_extends_witness :
    ∃ S', refresh_email_timer exState "a" 500 =
        .ok (S', "Timer for " ++ exInbox.email_address ++
          " has been reset to one hour.") ∧
      dlookup S'.inboxes "a" =
        some (Inbox.mk exInbox.email_address exInbox.messages
          (500 + TTL_SECONDS)) ∧
      exInbox.expires_at < 500 + TTL_SECONDS :=
  refresh_strictly_extends exState "a" 500 400 exInbox
    (by decide) (by decide) (by decide)

/-! ## C7: an absent identifier is unreachable by every operation -/

/-- C7: while an identifier is absent from the registry (after a reap or a
delete, and until it is re-created), `get`/`refresh`/`delete` all return
NotFound (HTTP 404), and the generator-style append fails with the dict's
missing-key error rather than touching any state.  (The code has no
standalone append endpoint; `appendMessage` is the generator's inlined
lookup-and-append, whose failure on an absent key is Python's `KeyError`.) -/
theorem removed_id_unreachable (S : ServerState) (email_id : String)
    (now : Nat) (m : Message)
    (h : dlookup S.inboxes email_id = none) :
    check_email_inbox S email_id = .error PyErr.notFound ∧
    refresh_email_timer S email_id now = .error PyErr.notFound ∧
    delete_email S email_id = .error PyErr.notFound ∧
    appendMessage S email_id m = .error PyErr.keyError := by
  refine ⟨?_, ?_, ?_, ?_⟩ <;>
    simp only [check_email_inbox, refresh_email_timer, delete_email,
      appendMessage, h]

/-- C7 witness: the identifier "zz" is absent from the concrete state. -/
theorem removed_id_unreachable_witness :
    check_email_inbox exState "zz" = .error PyErr.notFound ∧
    refresh_email_timer exState "zz" 500 = .error PyErr.notFound ∧
    delete_email exState "zz" = .error PyErr.notFound ∧
    appendMessage exState "zz" exMsg = .error PyErr.keyError :=
  removed_id_unreachable exState "zz" 500 exMsg (by decide)

/-! ## C8: create inserts a fresh, empty, TTL-stamped mailbox with a
unique address -/

/-- C8: whenever `generate_new_email` returns, the stored mailbox has an
empty message list and `expires_at = now + 1h`, the returned address
collides with no currently stored address, and pairwise distinctness of
the live addresses is preserved. -/
theorem generate_new_email_spec (S : ServerState) (email_id : String)
    (cands : Nat → String) (fuel now : Nat) (S' : ServerState)
    (rid addr : String)
    (hrun : generate_new_email S email_id cands fuel now = some (S', rid, addr))
    (hfresh : dlookup S.inboxes email_id = none)
    (hdistinct : (addressesOf S).Nodup) :
    dlookup S'.inboxes email_id =
      some (Inbox.mk addr [] (now + TTL_SECONDS)) ∧
    addr ∉ addressesOf S ∧
    (addressesOf S').Nodup := by
  unfold generate_new_email at hrun
  cases hg : genAddressLoop S cands 0 fuel with
  | none => rw [hg] at hrun; cases hrun
  | some a =>
    rw [hg] at hrun
    injection hrun with hrun
    rw [Prod.mk.injEq, Prod.mk.injEq] at hrun
    obtain ⟨rfl, rfl, rfl⟩ := hrun
    have hnot : a ∉ addressesOf S :=
      genAddressLoop_not_stored S cands fuel 0 a hg
    have hins := dinsert_of_lookup_none S.inboxes email_id
      (Inbox.mk a [] (now + TTL_SECONDS)) hfresh
    refine ⟨dlookup_dinsert_self _ _ _, hnot, ?_⟩
    have haddr : addressesOf (ServerState.mk
        (dinsert S.inboxes email_id (Inbox.mk a [] (now + TTL_SECONDS)))
        S.active_connections) = addressesOf S ++ [a] := by
      simp [addressesOf, hins]
    rw [haddr]
    refine List.Nodup.append hdistinct (List.nodup_singleton a) ?_
    intro x hx hxa
    rw [List.mem_singleton] at hxa
    subst hxa
    exact hnot hx

/-- The state produced by the C8 witness run of `generate_new_email`. -/
def exCreateOut : ServerState :=
  { inboxes := [("a", exInbox),
      ("b", { email_address := "fresh@temp-inbox.com", messages := [],
              expires_at := 50 + TTL_SECONDS })],
    active_connections := [("a", 7)] }

/-- C8 witness: a concrete create at time 50 with fresh id "b". -/
theorem generate_new_email_spec_witness :
    dlookup exCreateOut.inboxes "b" =
      some (Inbox.mk "fresh@temp-inbox.com" [] (50 + TTL_SECONDS)) ∧
    "fresh@temp-inbox.com" ∉ addressesOf exState ∧
    (addressesOf exCreateOut).Nodup :=
  generate_new_email_spec exState "b" exCands 1 50 exCreateOut "b"
    "fresh@temp-inbox.com" (by decide) (by decide) (by decide)

/-! ## C9: the address-collision retry loop terminates without surfacing
an error -/

/-- C9: if the candidate stream is not exhausted by the stored addresses
(some candidate is fresh), the retry loop succeeds after finitely many
regenerations — some finite fuel makes it return an address that collides
with nothing stored — and `generate_new_email` then returns normally for
every id and time, surfacing no collision error to the caller. -/
theorem create_retry_terminates (S : ServerState) (cands : Nat → String)
    (h : ∃ n, cands n ∉ addressesOf S) :
    ∃ fuel addr, genAddressLoop S cands 0 fuel = some addr ∧
      addr ∉ addressesOf S ∧
      ∀ email_id : String, ∀ now : Nat,
        ∃ r, generate_new_email S email_id cands fuel now = some r := by
  rcases h with ⟨n, hn⟩
  have hn' : cands (0 + n) ∉ addressesOf S := by
    rw [Nat.zero_add]; exact hn
  rcases genAddressLoop_terminates S cands (n + 1) 0 n (Nat.lt_succ_self n) hn'
    with ⟨addr, ha⟩
  refine ⟨n + 1, addr, ha,
    genAddressLoop_not_stored S cands (n + 1) 0 addr ha, ?_⟩
  intro email_id now
  refine ⟨(ServerState.mk (dinsert S.inboxes email_id
    (Inbox.mk addr [] (now + TTL_SECONDS))) S.active_connections,
    email_id, addr), ?_⟩
  simp only [generate_new_email, ha]

/-- C9 witness: the constant fresh candidate stream against the concrete
state. -/
theorem create_retry_terminates_witness :
    ∃ fuel addr, genAddressLoop exState exCands 0 fuel = some addr ∧
      addr ∉ addressesOf exState ∧
      ∀ email_id : String, ∀ now : Nat,
        ∃ r, generate_new_email exState email_id exCands fuel now = some r :=
  create_retry_terminates exState exCands ⟨0, by decide⟩

/-! ## C10: the generator's selected target is always present at lookup
and append time -/

/-- C10: in a cycle against a non-empty registry, the id chosen from the
key snapshot (`random.choice(list(inboxes.keys()))`) is present when the
cycle looks it up: the lookup yields the inbox and the append succeeds —
no missing-key failure is reachable between selection and append, since
the cycle body runs atomically (no await point separates selection from
append). -/
theorem selected_target_still_present (S : ServerState) (pick : Nat)
    (m : Message) (hne : S.inboxes ≠ []) :
    ∃ target d S', selectTarget S pick = some target ∧
      dlookup S.inboxes target = some d ∧
      appendMessage S target m = .ok S' := by
  have hlen : 0 < (S.inboxes.map Prod.fst).length := by
    rw [List.length_map]
    exact List.length_pos.2 hne
  cases hsel : selectTarget S pick with
  | none =>
    unfold selectTarget at hsel
    rw [List.get?_eq_none] at hsel
    exact absurd (Nat.mod_lt pick hlen) (Nat.not_lt.2 hsel)
  | some target =>
    have hmem := selectTarget_mem S pick target hsel
    have hs := dlookup_isSome_of_mem S.inboxes target hmem
    cases hd : dlookup S.inboxes target with
    | none => rw [hd] at hs; cases hs
    | some d =>
      refine ⟨target, d, ServerState.mk (dinsert S.inboxes target
        (Inbox.mk d.email_address (d.messages ++ [m]) d.expires_at))
        S.active_connections, rfl, hd, ?_⟩
      simp only [appendMessage, hd]

/-- C10 witness: the concrete non-empty state with pick index 0. -/
theorem selected_target_still_present_witness :
    ∃ target d S', selectTarget exState 0 = some target ∧
      dlookup exState.inboxes target = some d ∧
      appendMessage exState target exMsg = .ok S' :=
  selected_target_still_present exState 0 exMsg (by decide)
